import Mathlib

/-!
Shallow embedding of the configuration/theming subsystem of Cutter
(src/common/Configuration.cpp): durable settings store, interface-theme
registry and loaders, color cache, and the mirror of asm.* options into the
external disassembly engine.  Widget/stylesheet mechanics are outside the
model (the spec treats them as external collaborators); the live window
background color is modelled as a single RGBA value.
-/

/-- RGBA color with integer channels, as read back from QColor's
red/green/blue/alpha accessors. -/
structure QColor where
  r : Int
  g : Int
  b : Int
  a : Int
deriving DecidableEq, Repr

/-- QVariant-style dynamic value covering the types this subsystem stores. -/
inductive QVariant where
  | vNull : QVariant
  | vBool : Bool → QVariant
  | vInt : Int → QVariant
  | vStr : String → QVariant
  | vColor : QColor → QVariant
deriving DecidableEq, Repr

/-- The QVariant runtime type tag (QVariant::type()). -/
inductive QVType where
  | tNull : QVType
  | tBool : QVType
  | tInt : QVType
  | tStr : QVType
  | tColor : QVType
deriving DecidableEq, Repr

def QVariant.qtype : QVariant → QVType
  | .vNull => .tNull
  | .vBool _ => .tBool
  | .vInt _ => .tInt
  | .vStr _ => .tStr
  | .vColor _ => .tColor

/-- QVariant::toBool: false for null; nonzero for ints; a string is false
when empty, the digit zero, or the word false. -/
def QVariant.toBool : QVariant → Bool
  | .vBool b => b
  | .vInt n => n != 0
  | .vStr s => !(s == "" || s == "0" || s.toLower == "false")
  | _ => false

/-- QVariant::toInt: ints pass through, bools become zero or one, strings are
parsed and default to zero, other types give zero. -/
def QVariant.toInt : QVariant → Int
  | .vInt n => n
  | .vBool b => if b then 1 else 0
  | .vStr s => (s.toInt?).getD 0
  | _ => 0

/-- QVariant::toString on the value kinds this subsystem can persist. -/
def QVariant.toString : QVariant → String
  | .vStr s => s
  | .vInt n => ToString.toString n
  | .vBool b => if b then "true" else "false"
  | _ => ""

/-- QVariant::value of QColor: a non-color variant yields the
default-constructed QColor (black). -/
def QVariant.toColor : QVariant → QColor
  | .vColor c => c
  | _ => ⟨0, 0, 0, 255⟩

/-- A string-keyed settings namespace (QSettings, and the engine's config). -/
abbrev Store := String → Option QVariant

def Store.empty : Store := fun _ => none

/-- QSettings::setValue. -/
def Store.setValue (f : Store) (k : String) (v : QVariant) : Store :=
  fun x => if x = k then some v else f x

/-- QSettings::value with no explicit default (returns an invalid QVariant
when the key is absent). -/
def Store.value (f : Store) (k : String) : QVariant := (f k).getD .vNull

/-- QSettings::value with an explicit default. -/
def Store.valueD (f : Store) (k : String) (d : QVariant) : QVariant := (f k).getD d

/-- QSettings::contains. -/
def Store.contains (f : Store) (k : String) : Bool := (f k).isSome

/-- The change signals the Configuration facade can emit. -/
inductive Notification where
  | interfaceThemeChanged : Notification
  | colorsUpdated : Notification
  | fontsUpdated : Notification
deriving DecidableEq, Repr

/-- ColorFlags is a bitmask: LightFlag = 1, DarkFlag = 2. -/
abbrev ColorFlags := Nat

def LightFlag : ColorFlags := 1
def DarkFlag : ColorFlags := 2

structure CutterInterfaceTheme where
  name : String
  flag : ColorFlags
deriving DecidableEq, Repr

/-- The static interface-theme registry (kCutterInterfaceThemesList). -/
def kCutterInterfaceThemesList : List CutterInterfaceTheme :=
  [⟨"Native", LightFlag ||| DarkFlag⟩, ⟨"Dark", DarkFlag⟩, ⟨"Light", LightFlag⟩]

/-- All asm.* options saved as settings, with their default values (the
static asmOptions catalog; a QHash in the source, with pairwise-distinct
keys, so the iteration order of bulk operations over it is immaterial). -/
def asmOptions : List (String × QVariant) :=
  [ ("asm.esil", .vBool false)
  , ("asm.pseudo", .vBool false)
  , ("asm.offset", .vBool true)
  , ("asm.xrefs", .vBool false)
  , ("asm.indent", .vBool false)
  , ("asm.describe", .vBool false)
  , ("asm.slow", .vBool true)
  , ("asm.lines", .vBool true)
  , ("asm.lines.fcn", .vBool true)
  , ("asm.flags.offset", .vBool false)
  , ("asm.emu", .vBool false)
  , ("asm.cmt.right", .vBool true)
  , ("asm.cmt.col", .vInt 35)
  , ("asm.var.summary", .vBool false)
  , ("asm.bytes", .vBool false)
  , ("asm.size", .vBool false)
  , ("asm.bytespace", .vBool false)
  , ("asm.lbytes", .vBool true)
  , ("asm.nbytes", .vInt 10)
  , ("asm.syntax", .vStr "intel")
  , ("asm.ucase", .vBool false)
  , ("asm.bb.line", .vBool false)
  , ("asm.capitalize", .vBool false)
  , ("asm.var.sub", .vBool true)
  , ("asm.var.subonly", .vBool true)
  , ("asm.tabs", .vInt 5)
  , ("asm.tabs.off", .vInt 5)
  , ("asm.marks", .vBool false)
  , ("esil.breakoninvalid", .vBool true)
  , ("graph.offset", .vBool false)
  ]

/-- The state the facade manipulates: the durable QSettings store `s`, the
external engine's config namespace `core`, the live window background color
and the process-start native window color (qApp palette), the signals
emitted so far, and the raw commands issued to the engine. -/
structure ConfigState where
  s : Store
  core : Store
  window : QColor
  nativeWindow : QColor
  emitted : List Notification
  cmds : List String

/-- Modelled from the spec: Configuration::getInterfaceTheme lives in the
header (not under src); the spec says the persisted index is the durable
store's ColorPalette entry (int index). -/
def getInterfaceTheme (st : ConfigState) : Int :=
  (st.s.valueD ("ColorPalette") (.vInt 0)).toInt

/-- Modelled from the spec: Configuration::getColorTheme lives in the header
(not under src); the spec says the persisted color-theme name is the durable
store's theme entry (string), with the literal name default reserved. -/
def getColorTheme (st : ConfigState) : String :=
  (st.s.valueD ("theme") (.vStr "default")).toString

/-- Configuration::setColor: writes into the colors namespace of the durable
store. -/
def setColor (name : String) (color : QColor) (st : ConfigState) : ConfigState :=
  { st with s := st.s.setValue ("colors." ++ name) (.vColor color) }

/-- Configuration::getColor: reads colors.name, falling back to the reserved
key colors.other when absent. -/
def getColor (name : String) (st : ConfigState) : QColor :=
  if st.s.contains ("colors." ++ name) then (st.s.value ("colors." ++ name)).toColor
  else (st.s.value ("colors.other")).toColor

/-- Clamp of the interface-theme index done at the top of
Configuration::setInterfaceTheme: anything outside the registry bounds
becomes 0. -/
def clampThemeIndex (theme : Int) : Int :=
  if (kCutterInterfaceThemesList.length : Int) ≤ theme ∨ theme < 0 then 0 else theme

/-- The value Configuration::windowColorIsDark computes, without the
index-repair side effect of getCurrentTheme (see windowColorIsDark below for
the full stateful version).  The theme loaders are only reached from
setInterfaceTheme after it has stored a clamped, in-range index, so at those
call sites the side effect cannot fire and the two versions agree. -/
def windowColorIsDarkValue (st : ConfigState) : Bool :=
  let idx := clampThemeIndex (getInterfaceTheme st)
  let flags := (kCutterInterfaceThemesList.getD idx.toNat ⟨"Native", LightFlag ||| DarkFlag⟩).flag
  if flags = LightFlag then false
  else if flags = DarkFlag then true
  else decide (st.window.r + st.window.g + st.window.b < 382)

/-- Configuration::loadBaseThemeNative.  qApp->setPalette(nativePalette)
reverts the live window color to the process-start native one; the
stylesheet load touches no modelled state.  Then the fixed color table. -/
def loadBaseThemeNative (st0 : ConfigState) : ConfigState :=
  let st := { st0 with window := st0.nativeWindow }
  let st := setColor ("gui.cflow") ⟨0, 0, 0, 255⟩ st
  let st := setColor ("gui.imports") ⟨50, 140, 255, 255⟩ st
  let st := setColor ("gui.main") ⟨0, 128, 0, 255⟩ st
  let st := setColor ("gui.navbar.seek") ⟨255, 0, 0, 255⟩ st
  let st := setColor ("gui.navbar.pc") ⟨66, 238, 244, 255⟩ st
  let st := setColor ("gui.navbar.code") ⟨104, 229, 69, 255⟩ st
  let st := setColor ("gui.navbar.str") ⟨69, 104, 229, 255⟩ st
  let st := setColor ("gui.navbar.sym") ⟨229, 150, 69, 255⟩ st
  let st := setColor ("gui.navbar.empty") ⟨100, 100, 100, 255⟩ st
  let st := setColor ("gui.breakpoint_background") ⟨233, 143, 143, 255⟩ st
  let st := setColor ("gui.item_invalid") ⟨155, 155, 155, 255⟩ st
  let st := setColor ("gui.item_unsafe") ⟨255, 129, 123, 255⟩ st
  let st := setColor ("gui.overview.node") ⟨200, 200, 200, 255⟩ st
  let st := setColor ("gui.tooltip.background") ⟨250, 252, 254, 255⟩ st
  let st := setColor ("gui.tooltip.foreground") ⟨42, 44, 46, 255⟩ st
  st

/-- The dark-window override table of Configuration::loadNativeTheme. -/
def loadNativeThemeDarkColors (st0 : ConfigState) : ConfigState :=
  let st := setColor ("gui.border") ⟨0, 0, 0, 255⟩ st0
  let st := setColor ("gui.background") ⟨30, 30, 30, 255⟩ st
  let st := setColor ("gui.alt_background") ⟨42, 42, 42, 255⟩ st
  let st := setColor ("gui.disass_selected") ⟨35, 35, 35, 255⟩ st
  let st := setColor ("lineHighlight") ⟨255, 255, 255, 15⟩ st
  let st := setColor ("wordHighlight") ⟨20, 20, 20, 255⟩ st
  let st := setColor ("highlightPC") ⟨87, 26, 7, 255⟩ st
  let st := setColor ("gui.tooltip.background") ⟨42, 44, 46, 255⟩ st
  let st := setColor ("gui.tooltip.foreground") ⟨250, 252, 254, 255⟩ st
  let st := setColor ("gui.dataoffset") ⟨255, 255, 255, 255⟩ st
  let st := setColor ("gui.overview.fill") ⟨255, 255, 255, 40⟩ st
  let st := setColor ("gui.overview.border") ⟨99, 218, 232, 50⟩ st
  st

/-- The light-window override table of Configuration::loadNativeTheme. -/
def loadNativeThemeLightColors (st0 : ConfigState) : ConfigState :=
  let st := setColor ("gui.border") ⟨0, 0, 0, 255⟩ st0
  let st := setColor ("gui.background") ⟨255, 255, 255, 255⟩ st
  let st := setColor ("gui.alt_background") ⟨245, 250, 255, 255⟩ st
  let st := setColor ("gui.disass_selected") ⟨255, 255, 255, 255⟩ st
  let st := setColor ("lineHighlight") ⟨210, 210, 255, 150⟩ st
  let st := setColor ("wordHighlight") ⟨179, 119, 214, 60⟩ st
  let st := setColor ("highlightPC") ⟨214, 255, 210, 255⟩ st
  let st := setColor ("gui.dataoffset") ⟨0, 0, 0, 255⟩ st
  let st := setColor ("gui.overview.fill") ⟨175, 217, 234, 65⟩ st
  let st := setColor ("gui.overview.border") ⟨99, 218, 232, 50⟩ st
  st

/-- Configuration::loadNativeTheme: base table, then one of two override
tables chosen by the window darkness computed on the just-reverted native
palette. -/
def loadNativeTheme (st0 : ConfigState) : ConfigState :=
  let st := loadBaseThemeNative st0
  if windowColorIsDarkValue st then loadNativeThemeDarkColors st
  else loadNativeThemeLightColors st

/-- Configuration::loadLightTheme.  The stylesheet load and the palette text
color touch no modelled state (the window background is unchanged). -/
def loadLightTheme (st0 : ConfigState) : ConfigState :=
  let st := setColor ("gui.border") ⟨145, 200, 250, 255⟩ st0
  let st := setColor ("gui.background") ⟨255, 255, 255, 255⟩ st
  let st := setColor ("gui.alt_background") ⟨245, 250, 255, 255⟩ st
  let st := setColor ("gui.disass_selected") ⟨255, 255, 255, 255⟩ st
  let st := setColor ("lineHighlight") ⟨210, 210, 255, 150⟩ st
  let st := setColor ("wordHighlight") ⟨179, 119, 214, 60⟩ st
  let st := setColor ("highlightPC") ⟨214, 255, 210, 255⟩ st
  let st := setColor ("gui.navbar.empty") ⟨220, 236, 245, 255⟩ st
  let st := setColor ("gui.navbar.err") ⟨3, 170, 245, 255⟩ st
  let st := setColor ("gui.tooltip.background") ⟨250, 252, 254, 255⟩ st
  let st := setColor ("gui.tooltip.foreground") ⟨42, 44, 46, 255⟩ st
  let st := setColor ("gui.overview.node") ⟨245, 250, 255, 255⟩ st
  let st := setColor ("gui.overview.fill") ⟨175, 217, 234, 65⟩ st
  let st := setColor ("gui.overview.border") ⟨99, 218, 232, 50⟩ st
  st

/-- Configuration::loadBaseThemeDark.  The stylesheet load and the palette
text color touch no modelled state.  Then the fixed color table. -/
def loadBaseThemeDark (st0 : ConfigState) : ConfigState :=
  let st := setColor ("gui.cflow") ⟨255, 255, 255, 255⟩ st0
  let st := setColor ("gui.dataoffset") ⟨255, 255, 255, 255⟩ st
  let st := setColor ("gui.imports") ⟨50, 140, 255, 255⟩ st
  let st := setColor ("gui.item_invalid") ⟨155, 155, 155, 255⟩ st
  let st := setColor ("gui.item_unsafe") ⟨255, 129, 123, 255⟩ st
  let st := setColor ("gui.main") ⟨0, 128, 0, 255⟩ st
  let st := setColor ("gui.navbar.seek") ⟨233, 86, 86, 255⟩ st
  let st := setColor ("gui.navbar.pc") ⟨66, 238, 244, 255⟩ st
  let st := setColor ("gui.navbar.code") ⟨130, 200, 111, 255⟩ st
  let st := setColor ("gui.navbar.str") ⟨111, 134, 216, 255⟩ st
  let st := setColor ("gui.navbar.sym") ⟨221, 163, 104, 255⟩ st
  let st := setColor ("gui.navbar.empty") ⟨100, 100, 100, 255⟩ st
  let st := setColor ("highlightPC") ⟨87, 26, 7, 255⟩ st
  let st := setColor ("gui.breakpoint_background") ⟨140, 76, 76, 255⟩ st
  let st := setColor ("gui.overview.node") ⟨100, 100, 100, 255⟩ st
  let st := setColor ("gui.overview.fill") ⟨255, 255, 255, 40⟩ st
  let st := setColor ("gui.overview.border") ⟨99, 218, 232, 50⟩ st
  st

/-- Configuration::loadDarkTheme. -/
def loadDarkTheme (st0 : ConfigState) : ConfigState :=
  let st := loadBaseThemeDark st0
  let st := setColor ("gui.border") ⟨100, 100, 100, 255⟩ st
  let st := setColor ("gui.background") ⟨37, 40, 43, 255⟩ st
  let st := setColor ("gui.alt_background") ⟨28, 31, 36, 255⟩ st
  let st := setColor ("gui.disass_selected") ⟨31, 34, 40, 255⟩ st
  let st := setColor ("gui.tooltip.background") ⟨42, 44, 46, 255⟩ st
  let st := setColor ("gui.tooltip.foreground") ⟨250, 252, 254, 255⟩ st
  let st := setColor ("lineHighlight") ⟨21, 29, 29, 150⟩ st
  let st := setColor ("wordHighlight") ⟨52, 58, 71, 255⟩ st
  st

/-- Configuration::setInterfaceTheme: clamp the index, persist it under
ColorPalette, dispatch on the registry entry's name (Native as the
defensive fallback), then emit interfaceThemeChanged and colorsUpdated.
The getD default on the registry is never reached: the clamped index is
in range. -/
def setInterfaceTheme (theme : Int) (st : ConfigState) : ConfigState :=
  let t := clampThemeIndex theme
  let st1 := { st with s := st.s.setValue ("ColorPalette") (.vInt t) }
  let themeName :=
    (kCutterInterfaceThemesList.getD t.toNat ⟨"Native", LightFlag ||| DarkFlag⟩).name
  let st2 :=
    if themeName = "Native" then loadNativeTheme st1
    else if themeName = "Dark" then loadDarkTheme st1
    else if themeName = "Light" then loadLightTheme st1
    else loadNativeTheme st1
  { st2 with emitted := st2.emitted ++ [Notification.interfaceThemeChanged, Notification.colorsUpdated] }

/-- Configuration::getCurrentTheme: resolves the persisted index, repairing
an out-of-range one to 0 (with a full setInterfaceTheme(0) as side effect). -/
def getCurrentTheme (st : ConfigState) : CutterInterfaceTheme × ConfigState :=
  let i := getInterfaceTheme st
  if i < 0 ∨ (kCutterInterfaceThemesList.length : Int) ≤ i then
    (kCutterInterfaceThemesList.getD 0 ⟨"Native", LightFlag ||| DarkFlag⟩, setInterfaceTheme 0 st)
  else
    (kCutterInterfaceThemesList.getD i.toNat ⟨"Native", LightFlag ||| DarkFlag⟩, st)

/-- Configuration::windowColorIsDark: the current theme's flags decide when
they are a single appearance; otherwise the live window color's channel sum
is compared against 382. -/
def windowColorIsDark (st : ConfigState) : Bool × ConfigState :=
  let p := getCurrentTheme st
  if p.1.flag = LightFlag then (false, p.2)
  else if p.1.flag = DarkFlag then (true, p.2)
  else (decide (p.2.window.r + p.2.window.g + p.2.window.b < 382), p.2)

/-- Configuration::getLastThemeOf: the per-interface-theme last color theme,
defaulting to the current color theme. -/
def getLastThemeOf (t : CutterInterfaceTheme) (st : ConfigState) : String :=
  (st.s.valueD ("lastThemeOf." ++ t.name) (.vStr (getColorTheme st))).toString

/-- Configuration::setLastThemeOf. -/
def setLastThemeOf (t : CutterInterfaceTheme) (theme : String) (st : ConfigState) : ConfigState :=
  { st with s := st.s.setValue ("lastThemeOf." ++ t.name) (.vStr theme) }

/-- Modelled from the spec: CutterCore::setConfig (the external engine's
typed option write, not under src); the spec's directive is set typed option
by dotted key, modelled as a write into the engine's namespace. -/
def coreSetConfig (k : String) (v : QVariant) (st : ConfigState) : ConfigState :=
  { st with core := st.core.setValue k v }

/-- Modelled from the spec: CutterCore::getConfigb (bool read of an engine
option, not under src). -/
def coreGetConfigb (k : String) (st : ConfigState) : Bool :=
  (st.core.value k).toBool

/-- Modelled from the spec: CutterCore::getConfigi (int read of an engine
option, not under src). -/
def coreGetConfigi (k : String) (st : ConfigState) : Int :=
  (st.core.value k).toInt

/-- Modelled from the spec: CutterCore::getConfig (string read of an engine
option, not under src). -/
def coreGetConfig (k : String) (st : ConfigState) : String :=
  (st.core.value k).toString

/-- Modelled from the spec: CutterCore::cmd (a raw directive issued to the
engine, not under src); recorded verbatim. -/
def coreCmd (c : String) (st : ConfigState) : ConfigState :=
  { st with cmds := st.cmds ++ [c] }

/-- Configuration::setConfig: persist locally only for recognized catalog
keys, and forward to the engine unconditionally. -/
def setConfig (key : String) (value : QVariant) (st : ConfigState) : ConfigState :=
  let st1 :=
    if (List.lookup key asmOptions).isSome then { st with s := st.s.setValue key value }
    else st
  coreSetConfig key value st1

/-- Configuration::getConfigVar: a recognized key is read live from the
engine, coerced by the catalog default's type; an unrecognized key yields an
invalid QVariant. -/
def getConfigVar (key : String) (st : ConfigState) : QVariant :=
  match List.lookup key asmOptions with
  | some d =>
    match d.qtype with
    | .tBool => .vBool (coreGetConfigb key st)
    | .tInt => .vInt (coreGetConfigi key st)
    | _ => .vStr (coreGetConfig key st)
  | none => .vNull

/-- Configuration::getConfigBool. -/
def getConfigBool (key : String) (st : ConfigState) : Bool :=
  (getConfigVar key st).toBool

/-- Configuration::getConfigInt. -/
def getConfigInt (key : String) (st : ConfigState) : Int :=
  (getConfigVar key st).toInt

/-- Configuration::getConfigString. -/
def getConfigString (key : String) (st : ConfigState) : String :=
  (getConfigVar key st).toString

/-- One iteration of Configuration::resetToDefaultAsmOptions. -/
def setConfigStep (acc : ConfigState) (p : String × QVariant) : ConfigState :=
  setConfig p.1 p.2 acc

/-- Configuration::resetToDefaultAsmOptions: setConfig of every catalog
default. -/
def resetToDefaultAsmOptions (st : ConfigState) : ConfigState :=
  asmOptions.foldl setConfigStep st

/-- One iteration of Configuration::applySavedAsmOptions: the engine gets
the persisted value when present, else the compiled-in default. -/
def applyStep (acc : ConfigState) (p : String × QVariant) : ConfigState :=
  coreSetConfig p.1 (acc.s.valueD p.1 p.2) acc

/-- Configuration::applySavedAsmOptions. -/
def applySavedAsmOptions (st : ConfigState) : ConfigState :=
  asmOptions.foldl applyStep st

/-- The external ColorThemeWorker collaborator (not under src), reduced to
what Configuration.cpp consumes: the theme's key to RGBA-array mapping and
the custom-theme predicate. -/
structure ThemeWorkerModel where
  getTheme : String → List (String × List Int)
  isCustomTheme : String → Bool

/-- One iteration of the color-application loop of
Configuration::setColorTheme: entries whose array is not of size 4 are
skipped. -/
def applyThemeColor (acc : ConfigState) (p : String × List Int) : ConfigState :=
  if p.2.length ≠ 4 then acc
  else
    setColor p.1
      ⟨(p.2.getD 0 0), (p.2.getD 1 0), (p.2.getD 2 0), (p.2.getD 3 0)⟩ acc

/-- Configuration::setColorTheme: issue the engine directive (reset for the
reserved name default, load-named otherwise) and persist the name; copy the
engine-reported colors into the color cache; for a non-custom theme,
re-trigger setInterfaceTheme with the current index; emit colorsUpdated. -/
def setColorTheme (tw : ThemeWorkerModel) (theme : String) (st : ConfigState) : ConfigState :=
  let st1 :=
    if theme = "default" then
      { coreCmd ("ecd") st with s := st.s.setValue ("theme") (.vStr "default") }
    else
      { coreCmd ("eco " ++ theme) st with s := st.s.setValue ("theme") (.vStr theme) }
  let st2 := (tw.getTheme theme).foldl applyThemeColor st1
  let st3 :=
    if !(tw.isCustomTheme theme) then setInterfaceTheme (getInterfaceTheme st2) st2
    else st2
  { st3 with emitted := st3.emitted ++ [Notification.colorsUpdated] }

/-- Configuration::isFirstExecution: true exactly when the firstExecution
key is absent, in which case the key is written before returning. -/
def isFirstExecution (st : ConfigState) : Bool × ConfigState :=
  if st.s.contains ("firstExecution") then (false, st)
  else (true, { st with s := st.s.setValue ("firstExecution") (.vBool false) })

/-- An initial state with empty stores and a white (light) native window. -/
def initialState : ConfigState :=
  ⟨Store.empty, Store.empty, ⟨255, 255, 255, 255⟩, ⟨255, 255, 255, 255⟩, [], []⟩

/-- A state whose color cache holds only the reserved fallback color. -/
def stW5 : ConfigState :=
  { initialState with s := Store.empty.setValue ("colors.other") (.vColor ⟨7, 8, 9, 255⟩) }

/-- A ThemeWorker for which every theme is a custom theme and every theme
definition is empty. -/
def twCustomOnly : ThemeWorkerModel :=
  ⟨fun _ => [], fun _ => true⟩

/-- A ThemeWorker for which no theme is a custom theme (standard themes
only) and every theme definition is empty. -/
def twStandard : ThemeWorkerModel :=
  ⟨fun _ => [], fun _ => false⟩

/-- A state with a persisted color theme differing from the Dark interface
theme's lastThemeOf entry. -/
def stC3 : ConfigState :=
  { initialState with
    s := (Store.empty.setValue ("theme") (.vStr "bar")).setValue
        ("lastThemeOf.Dark") (.vStr "foo") }

/-- A state whose persisted index already selects the Dark interface theme. -/
def stW6 : ConfigState :=
  { initialState with s := Store.empty.setValue ("ColorPalette") (.vInt 1) }

/- ------------------------------------------------------------------ -/
/- Theorems.                                                           -/
/- ------------------------------------------------------------------ -/

theorem Store.setValue_apply (f : Store) (k : String) (v : QVariant) (x : String) :
    (f.setValue k v) x = if x = k then some v else f x := rfl

/-- The clamped interface-theme index is one of the three registry slots. -/
theorem clampThemeIndex_cases (i : Int) :
    clampThemeIndex i = 0 ∨ clampThemeIndex i = 1 ∨ clampThemeIndex i = 2 := by
  unfold clampThemeIndex
  split
  · exact Or.inl rfl
  · rename_i h
    have hlen : ((kCutterInterfaceThemesList.length : Nat) : Int) = 3 := rfl
    rw [hlen] at h
    omega

/-- C1: for every integer index outside the registry bounds,
setInterfaceTheme behaves identically to setInterfaceTheme 0: the same
persisted index 0, the same Native load, the same notifications. -/
theorem setInterfaceTheme_oob_eq_zero (i : Int) (st : ConfigState)
    (h : i < 0 ∨ (kCutterInterfaceThemesList.length : Int) ≤ i) :
    setInterfaceTheme i st = setInterfaceTheme 0 st := by
  have h1 : clampThemeIndex i = 0 := by
    unfold clampThemeIndex
    exact if_pos (h.elim Or.inr Or.inl)
  have h2 : clampThemeIndex 0 = 0 := by decide
  unfold setInterfaceTheme
  rw [h1, h2]

theorem setInterfaceTheme_oob_eq_zero_witness :
    setInterfaceTheme 5 initialState = setInterfaceTheme 0 initialState :=
  setInterfaceTheme_oob_eq_zero 5 initialState (Or.inr (by decide))

/-- C5: getColor never fails: a key present in the color cache yields its
stored value, and an absent key yields exactly what getColor returns for the
reserved key other. -/
theorem getColor_never_fails (st : ConfigState) (k : String) :
    (∀ c, st.s ("colors." ++ k) = some c → getColor k st = c.toColor) ∧
    (st.s ("colors." ++ k) = none → getColor k st = getColor ("other") st) := by
  have hother : getColor ("other") st = (st.s.value ("colors.other")).toColor := by
    unfold getColor
    split <;> rfl
  constructor
  · intro c hc
    have hcont : st.s.contains ("colors." ++ k) = true := by
      unfold Store.contains; rw [hc]; rfl
    unfold getColor
    rw [if_pos hcont]
    unfold Store.value
    rw [hc]
    rfl
  · intro hc
    have hcont : st.s.contains ("colors." ++ k) = false := by
      unfold Store.contains; rw [hc]; rfl
    have hmain : getColor k st = (st.s.value ("colors.other")).toColor := by
      unfold getColor
      rw [if_neg (by simp [hcont])]
    rw [hmain, hother]

theorem getColor_never_fails_witness :
    getColor ("missing") stW5 = getColor ("other") stW5 :=
  (getColor_never_fails stW5 ("missing")).2 (by decide)

/-- C9: setConfig forwards every pair to the external engine
unconditionally, and persists the key in the durable store exactly when it
is a recognized catalog key; an unrecognized key leaves the durable store
untouched. -/
theorem setConfig_frame (st : ConfigState) (k : String) (v : QVariant) :
    ((List.lookup k asmOptions).isSome = true →
      (setConfig k v st).s = st.s.setValue k v) ∧
    ((List.lookup k asmOptions).isSome = false → (setConfig k v st).s = st.s) ∧
    (setConfig k v st).core = st.core.setValue k v := by
  unfold setConfig coreSetConfig
  refine ⟨fun h => ?_, fun h => ?_, ?_⟩
  · rw [if_pos h]
  · rw [if_neg (by simp [h])]
  · split <;> rfl

theorem setConfig_frame_witness :
    (setConfig ("totally.unknown") (.vInt 7) initialState).s = initialState.s ∧
    (setConfig ("totally.unknown") (.vInt 7) initialState).core
      = initialState.core.setValue ("totally.unknown") (.vInt 7) :=
  ⟨(setConfig_frame initialState ("totally.unknown") (.vInt 7)).2.1 (by decide),
   (setConfig_frame initialState ("totally.unknown") (.vInt 7)).2.2⟩

/-- C10: isFirstExecution returns true exactly when the firstExecution key
is absent from the durable store, writes the key in that case before
returning, and any immediately following call returns false. -/
theorem isFirstExecution_spec (st : ConfigState) :
    (st.s.contains ("firstExecution") = true → isFirstExecution st = (false, st)) ∧
    (st.s.contains ("firstExecution") = false →
      (isFirstExecution st).1 = true ∧
      (isFirstExecution st).2.s ("firstExecution") = some (.vBool false)) ∧
    (isFirstExecution (isFirstExecution st).2).1 = false := by
  by_cases h : st.s.contains ("firstExecution") = true
  · refine ⟨fun _ => ?_, fun hf => absurd h (by simp [hf]), ?_⟩
    · unfold isFirstExecution; rw [if_pos h]
    · simp [isFirstExecution, h]
  · have h' : st.s.contains ("firstExecution") = false := by
      revert h; cases st.s.contains ("firstExecution") <;> simp
    have h'' : (st.s ("firstExecution")).isSome = false := h'
    refine ⟨fun ht => absurd ht (by simp [h']), fun _ => ⟨?_, ?_⟩, ?_⟩
    · simp [isFirstExecution, Store.contains, h'']
    · simp [isFirstExecution, Store.contains, h'', Store.setValue]
    · simp [isFirstExecution, Store.contains, h'', Store.setValue]

theorem isFirstExecution_spec_witness :
    (isFirstExecution initialState).1 = true ∧
    (isFirstExecution initialState).2.s ("firstExecution") = some (.vBool false) :=
  (isFirstExecution_spec initialState).2.1 (by decide)

/-- The Dark loader leaves every non-color key, the notifications and the
engine untouched, and does set the navbar empty color. -/
theorem loadDarkTheme_props (st : ConfigState) :
    (loadDarkTheme st).s ("ColorPalette") = st.s ("ColorPalette") ∧
    (loadDarkTheme st).s ("theme") = st.s ("theme") ∧
    (loadDarkTheme st).s ("lastThemeOf.Native") = st.s ("lastThemeOf.Native") ∧
    (loadDarkTheme st).s ("lastThemeOf.Dark") = st.s ("lastThemeOf.Dark") ∧
    (loadDarkTheme st).s ("lastThemeOf.Light") = st.s ("lastThemeOf.Light") ∧
    (loadDarkTheme st).emitted = st.emitted ∧
    (loadDarkTheme st).s.contains ("colors.gui.navbar.empty") = true :=
  ⟨rfl, rfl, rfl, rfl, rfl, rfl, rfl⟩

/-- The Light loader leaves every non-color key, the notifications and the
engine untouched, and does set the navbar empty color. -/
theorem loadLightTheme_props (st : ConfigState) :
    (loadLightTheme st).s ("ColorPalette") = st.s ("ColorPalette") ∧
    (loadLightTheme st).s ("theme") = st.s ("theme") ∧
    (loadLightTheme st).s ("lastThemeOf.Native") = st.s ("lastThemeOf.Native") ∧
    (loadLightTheme st).s ("lastThemeOf.Dark") = st.s ("lastThemeOf.Dark") ∧
    (loadLightTheme st).s ("lastThemeOf.Light") = st.s ("lastThemeOf.Light") ∧
    (loadLightTheme st).emitted = st.emitted ∧
    (loadLightTheme st).s.contains ("colors.gui.navbar.empty") = true :=
  ⟨rfl, rfl, rfl, rfl, rfl, rfl, rfl⟩

/-- The Native loader leaves every non-color key, the notifications and the
engine untouched, and does set the navbar empty color (in its base table,
whichever appearance branch runs afterwards). -/
theorem loadNativeTheme_props (st : ConfigState) :
    (loadNativeTheme st).s ("ColorPalette") = st.s ("ColorPalette") ∧
    (loadNativeTheme st).s ("theme") = st.s ("theme") ∧
    (loadNativeTheme st).s ("lastThemeOf.Native") = st.s ("lastThemeOf.Native") ∧
    (loadNativeTheme st).s ("lastThemeOf.Dark") = st.s ("lastThemeOf.Dark") ∧
    (loadNativeTheme st).s ("lastThemeOf.Light") = st.s ("lastThemeOf.Light") ∧
    (loadNativeTheme st).emitted = st.emitted ∧
    (loadNativeTheme st).s.contains ("colors.gui.navbar.empty") = true := by
  simp only [loadNativeTheme]
  split <;> exact ⟨rfl, rfl, rfl, rfl, rfl, rfl, rfl⟩

/-- When the clamped index is 0, setInterfaceTheme runs the Native loader. -/
theorem setInterfaceTheme_eval_native (i : Int) (st : ConfigState)
    (h : clampThemeIndex i = 0) :
    setInterfaceTheme i st =
      (let st2 := loadNativeTheme { st with s := st.s.setValue ("ColorPalette") (.vInt 0) }
       { st2 with emitted := st2.emitted
            ++ [Notification.interfaceThemeChanged, Notification.colorsUpdated] }) := by
  unfold setInterfaceTheme
  rw [h]
  rfl

/-- When the clamped index is 1, setInterfaceTheme runs the Dark loader. -/
theorem setInterfaceTheme_eval_dark (i : Int) (st : ConfigState)
    (h : clampThemeIndex i = 1) :
    setInterfaceTheme i st =
      (let st2 := loadDarkTheme { st with s := st.s.setValue ("ColorPalette") (.vInt 1) }
       { st2 with emitted := st2.emitted
            ++ [Notification.interfaceThemeChanged, Notification.colorsUpdated] }) := by
  unfold setInterfaceTheme
  rw [h]
  rfl

/-- When the clamped index is 2, setInterfaceTheme runs the Light loader. -/
theorem setInterfaceTheme_eval_light (i : Int) (st : ConfigState)
    (h : clampThemeIndex i = 2) :
    setInterfaceTheme i st =
      (let st2 := loadLightTheme { st with s := st.s.setValue ("ColorPalette") (.vInt 2) }
       { st2 with emitted := st2.emitted
            ++ [Notification.interfaceThemeChanged, Notification.colorsUpdated] }) := by
  unfold setInterfaceTheme
  rw [h]
  rfl

/-- setInterfaceTheme persists exactly the clamped index under ColorPalette,
leaves the color-theme name and every lastThemeOf entry of the registry
untouched, appends interfaceThemeChanged then colorsUpdated, and always ends
with the navbar empty override present in the color cache. -/
theorem setInterfaceTheme_props (i : Int) (st : ConfigState) :
    (setInterfaceTheme i st).s ("ColorPalette") = some (.vInt (clampThemeIndex i)) ∧
    (setInterfaceTheme i st).s ("theme") = st.s ("theme") ∧
    (setInterfaceTheme i st).s ("lastThemeOf.Native") = st.s ("lastThemeOf.Native") ∧
    (setInterfaceTheme i st).s ("lastThemeOf.Dark") = st.s ("lastThemeOf.Dark") ∧
    (setInterfaceTheme i st).s ("lastThemeOf.Light") = st.s ("lastThemeOf.Light") ∧
    (setInterfaceTheme i st).emitted
      = st.emitted ++ [Notification.interfaceThemeChanged, Notification.colorsUpdated] ∧
    (setInterfaceTheme i st).s.contains ("colors.gui.navbar.empty") = true := by
  rcases clampThemeIndex_cases i with h | h | h
  · rw [setInterfaceTheme_eval_native i st h, h]
    obtain ⟨p1, p2, p3, p4, p5, p6, p7⟩ :=
      loadNativeTheme_props { st with s := st.s.setValue ("ColorPalette") (.vInt 0) }
    exact ⟨p1, p2, p3, p4, p5,
      congrArg (fun l => l ++ [Notification.interfaceThemeChanged, Notification.colorsUpdated]) p6,
      p7⟩
  · rw [setInterfaceTheme_eval_dark i st h, h]
    obtain ⟨p1, p2, p3, p4, p5, p6, p7⟩ :=
      loadDarkTheme_props { st with s := st.s.setValue ("ColorPalette") (.vInt 1) }
    exact ⟨p1, p2, p3, p4, p5,
      congrArg (fun l => l ++ [Notification.interfaceThemeChanged, Notification.colorsUpdated]) p6,
      p7⟩
  · rw [setInterfaceTheme_eval_light i st h, h]
    obtain ⟨p1, p2, p3, p4, p5, p6, p7⟩ :=
      loadLightTheme_props { st with s := st.s.setValue ("ColorPalette") (.vInt 2) }
    exact ⟨p1, p2, p3, p4, p5,
      congrArg (fun l => l ++ [Notification.interfaceThemeChanged, Notification.colorsUpdated]) p6,
      p7⟩

/-- C6: windowColorIsDark is false when the current theme supports only the
Light appearance, true when it supports only Dark (in particular right after
setInterfaceTheme 1, whatever the live window color is), and otherwise is
the channel-sum test against the fixed cutoff 382. -/
theorem windowColorIsDark_spec (st : ConfigState) :
    ((getCurrentTheme st).1.flag = LightFlag → (windowColorIsDark st).1 = false) ∧
    ((getCurrentTheme st).1.flag = DarkFlag → (windowColorIsDark st).1 = true) ∧
    ((windowColorIsDark (setInterfaceTheme 1 st)).1 = true) ∧
    ((getCurrentTheme st).1.flag ≠ LightFlag → (getCurrentTheme st).1.flag ≠ DarkFlag →
      (windowColorIsDark st).1 =
        decide ((getCurrentTheme st).2.window.r + (getCurrentTheme st).2.window.g
          + (getCurrentTheme st).2.window.b < 382)) := by
  refine ⟨fun h => ?_, fun h => ?_, ?_, fun h1 h2 => ?_⟩
  · simp [windowColorIsDark, h]
  · simp [windowColorIsDark, h, LightFlag, DarkFlag]
  · have hp := (setInterfaceTheme_props 1 st).1
    have hclamp : clampThemeIndex 1 = 1 := by decide
    rw [hclamp] at hp
    have hgi : getInterfaceTheme (setInterfaceTheme 1 st) = 1 := by
      unfold getInterfaceTheme Store.valueD
      rw [hp]
      rfl
    unfold windowColorIsDark getCurrentTheme
    rw [hgi]
    rfl
  · simp [windowColorIsDark, h1, h2]

theorem windowColorIsDark_spec_witness :
    (windowColorIsDark stW6).1 = true :=
  (windowColorIsDark_spec stW6).2.1 (by decide)

/-- Counterexample to C2 as stated: for a custom theme, setColorTheme does
NOT re-trigger setInterfaceTheme — at this concrete input the navbar
override is absent from the color cache afterwards and no
interfaceThemeChanged notification was emitted. -/
theorem setColorTheme_custom_cex :
    (setColorTheme twCustomOnly ("MyCustom") initialState).s.contains
        ("colors.gui.navbar.empty") = false ∧
    Notification.interfaceThemeChanged ∉
      (setColorTheme twCustomOnly ("MyCustom") initialState).emitted := by
  decide

/-- One color-application step touches only the durable store. -/
theorem applyThemeColor_emitted (acc : ConfigState) (p : String × List Int) :
    (applyThemeColor acc p).emitted = acc.emitted := by
  unfold applyThemeColor setColor
  split <;> rfl

/-- The whole color-application loop touches no notifications. -/
theorem foldl_applyThemeColor_emitted (l : List (String × List Int)) :
    ∀ acc : ConfigState, (l.foldl applyThemeColor acc).emitted = acc.emitted := by
  induction l with
  | nil => intro acc; rfl
  | cons p tl ih =>
    intro acc
    rw [List.foldl_cons, ih, applyThemeColor_emitted]

/-- Dispatch of setColorTheme when the theme is not custom. -/
theorem setColorTheme_eval_standard (tw : ThemeWorkerModel) (t : String)
    (st : ConfigState) (h : tw.isCustomTheme t = false) :
    setColorTheme tw t st =
      (let st1 :=
        if t = "default" then
          { coreCmd ("ecd") st with s := st.s.setValue ("theme") (.vStr "default") }
        else
          { coreCmd ("eco " ++ t) st with s := st.s.setValue ("theme") (.vStr t) }
       let st2 := (tw.getTheme t).foldl applyThemeColor st1
       let st3 := setInterfaceTheme (getInterfaceTheme st2) st2
       { st3 with emitted := st3.emitted ++ [Notification.colorsUpdated] }) := by
  unfold setColorTheme
  rw [h]
  rfl

theorem setColorTheme_eval_custom (tw : ThemeWorkerModel) (t : String)
    (st : ConfigState) (h : tw.isCustomTheme t = true) :
    setColorTheme tw t st =
      (let st1 :=
        if t = "default" then
          { coreCmd ("ecd") st with s := st.s.setValue ("theme") (.vStr "default") }
        else
          { coreCmd ("eco " ++ t) st with s := st.s.setValue ("theme") (.vStr t) }
       let st2 := (tw.getTheme t).foldl applyThemeColor st1
       { st2 with emitted := st2.emitted ++ [Notification.colorsUpdated] }) := by
  unfold setColorTheme
  rw [h]
  rfl

/-- C2 as amended: the re-trigger of setInterfaceTheme happens exactly when
the theme is NOT a custom theme.  For a non-custom (standard) theme the
interface-theme navbar override is present afterwards and
interfaceThemeChanged was emitted; for a custom theme only colorsUpdated is
emitted. -/
theorem setColorTheme_retrigger (tw : ThemeWorkerModel) (t : String) (st : ConfigState) :
    (tw.isCustomTheme t = false →
      (setColorTheme tw t st).s.contains ("colors.gui.navbar.empty") = true ∧
      Notification.interfaceThemeChanged ∈ (setColorTheme tw t st).emitted) ∧
    (tw.isCustomTheme t = true →
      (setColorTheme tw t st).emitted = st.emitted ++ [Notification.colorsUpdated]) := by
  constructor
  · intro h
    rw [setColorTheme_eval_standard tw t st h]
    refine ⟨(setInterfaceTheme_props _ _).2.2.2.2.2.2, ?_⟩
    show Notification.interfaceThemeChanged ∈ (setInterfaceTheme _ _).emitted ++ _
    rw [(setInterfaceTheme_props _ _).2.2.2.2.2.1]
    simp
  · intro h
    rw [setColorTheme_eval_custom tw t st h]
    show ((tw.getTheme t).foldl applyThemeColor _).emitted ++ _ = _
    rw [foldl_applyThemeColor_emitted]
    split <;> rfl

theorem setColorTheme_retrigger_witness :
    (setColorTheme twStandard ("solarized") initialState).s.contains
        ("colors.gui.navbar.empty") = true ∧
    Notification.interfaceThemeChanged ∈
      (setColorTheme twStandard ("solarized") initialState).emitted :=
  (setColorTheme_retrigger twStandard ("solarized") initialState).1 rfl

/-- Counterexample to C3 as stated: switching the interface theme with
setInterfaceTheme does not restore that theme's last-used color theme — at
this concrete input the persisted color theme after setInterfaceTheme 1 is
still bar while getLastThemeOf for the now-current Dark theme is foo. -/
theorem setInterfaceTheme_no_restore_cex :
    getColorTheme (setInterfaceTheme 1 stC3)
      ≠ getLastThemeOf (getCurrentTheme (setInterfaceTheme 1 stC3)).1
          (setInterfaceTheme 1 stC3) := by
  decide

/-- C3 as amended: getLastThemeOf gives each registry theme its single
current color-theme name (the lastThemeOf entry, defaulting to the current
color theme), but setInterfaceTheme restores nothing: it changes neither the
persisted color theme nor any lastThemeOf entry. -/
theorem setInterfaceTheme_keeps_colorTheme (i : Int) (st : ConfigState)
    (T : CutterInterfaceTheme) (hT : T ∈ kCutterInterfaceThemesList) :
    getColorTheme (setInterfaceTheme i st) = getColorTheme st ∧
    getLastThemeOf T (setInterfaceTheme i st) = getLastThemeOf T st := by
  obtain ⟨p1, p2, p3, p4, p5, p6, p7⟩ := setInterfaceTheme_props i st
  have hct : getColorTheme (setInterfaceTheme i st) = getColorTheme st := by
    unfold getColorTheme Store.valueD
    rw [p2]
  refine ⟨hct, ?_⟩
  have hT3 : T = ⟨"Native", LightFlag ||| DarkFlag⟩ ∨ T = ⟨"Dark", DarkFlag⟩
      ∨ T = ⟨"Light", LightFlag⟩ := by
    simpa [kCutterInterfaceThemesList] using hT
  rcases hT3 with rfl | rfl | rfl
  · unfold getLastThemeOf Store.valueD
    rw [show (setInterfaceTheme i st).s ("lastThemeOf." ++ "Native")
        = st.s ("lastThemeOf." ++ "Native") from p3, hct]
  · unfold getLastThemeOf Store.valueD
    rw [show (setInterfaceTheme i st).s ("lastThemeOf." ++ "Dark")
        = st.s ("lastThemeOf." ++ "Dark") from p4, hct]
  · unfold getLastThemeOf Store.valueD
    rw [show (setInterfaceTheme i st).s ("lastThemeOf." ++ "Light")
        = st.s ("lastThemeOf." ++ "Light") from p5, hct]

theorem setInterfaceTheme_keeps_colorTheme_witness :
    getColorTheme (setInterfaceTheme 1 stC3) = getColorTheme stC3 ∧
    getLastThemeOf ⟨"Dark", DarkFlag⟩ (setInterfaceTheme 1 stC3)
      = getLastThemeOf ⟨"Dark", DarkFlag⟩ stC3 :=
  setInterfaceTheme_keeps_colorTheme 1 stC3 ⟨"Dark", DarkFlag⟩ (by decide)

/-- A successful association-list lookup locates a member pair. -/
theorem lookup_mem {l : List (String × QVariant)} {k : String} {d : QVariant}
    (h : List.lookup k l = some d) : (k, d) ∈ l := by
  induction l with
  | nil => simp [List.lookup] at h
  | cons p tl ih =>
    obtain ⟨a, b⟩ := p
    cases hk : k == a
    case true =>
      have hka : k = a := eq_of_beq hk
      have hbd : b = d := by simpa [List.lookup, hk] using h
      subst hka
      subst hbd
      exact List.mem_cons_self _ _
    case false =>
      have h' : List.lookup k tl = some d := by simpa [List.lookup, hk] using h
      exact List.mem_cons_of_mem _ (ih h')

/-- Every catalog default is a bool, an int or a string. -/
theorem asmOptions_qtype :
    ∀ p ∈ asmOptions, p.2.qtype = QVType.tBool ∨ p.2.qtype = QVType.tInt
      ∨ p.2.qtype = QVType.tStr := by
  decide

theorem qtype_eq_tBool {v : QVariant} (h : v.qtype = QVType.tBool) :
    ∃ b, v = QVariant.vBool b := by
  cases v <;> first | exact ⟨_, rfl⟩ | simp [QVariant.qtype] at h

theorem qtype_eq_tInt {v : QVariant} (h : v.qtype = QVType.tInt) :
    ∃ n, v = QVariant.vInt n := by
  cases v <;> first | exact ⟨_, rfl⟩ | simp [QVariant.qtype] at h

theorem qtype_eq_tStr {v : QVariant} (h : v.qtype = QVType.tStr) :
    ∃ s, v = QVariant.vStr s := by
  cases v <;> first | exact ⟨_, rfl⟩ | simp [QVariant.qtype] at h

/-- What setConfig just forwarded is what the engine now reports. -/
theorem setConfig_core_value (k : String) (v : QVariant) (st : ConfigState) :
    (setConfig k v st).core.value k = v := by
  unfold setConfig coreSetConfig Store.value Store.setValue
  split <;> simp

/-- C4: for a recognized catalog key and a value of the key's declared type,
setConfig then getConfigVar returns the value, read back from the engine
under the catalog-selected bool/int/string coercion. -/
theorem setConfig_getConfigVar_roundtrip (st : ConfigState) (k : String) (v d : QVariant)
    (hl : List.lookup k asmOptions = some d) (ht : v.qtype = d.qtype) :
    getConfigVar k (setConfig k v st) = v := by
  have hd := asmOptions_qtype (k, d) (lookup_mem hl)
  unfold getConfigVar
  rw [hl]
  rcases hd with h | h | h
  · obtain ⟨b0, rfl⟩ := qtype_eq_tBool h
    obtain ⟨b, rfl⟩ := qtype_eq_tBool ht
    show QVariant.vBool (coreGetConfigb k (setConfig k (.vBool b) st)) = QVariant.vBool b
    unfold coreGetConfigb
    rw [setConfig_core_value]
    rfl
  · obtain ⟨n0, rfl⟩ := qtype_eq_tInt h
    obtain ⟨n, rfl⟩ := qtype_eq_tInt ht
    show QVariant.vInt (coreGetConfigi k (setConfig k (.vInt n) st)) = QVariant.vInt n
    unfold coreGetConfigi
    rw [setConfig_core_value]
    rfl
  · obtain ⟨s0, rfl⟩ := qtype_eq_tStr h
    obtain ⟨s, rfl⟩ := qtype_eq_tStr ht
    show QVariant.vStr (coreGetConfig k (setConfig k (.vStr s) st)) = QVariant.vStr s
    unfold coreGetConfig
    rw [setConfig_core_value]
    rfl

theorem setConfig_getConfigVar_roundtrip_witness :
    getConfigVar ("asm.offset") (setConfig ("asm.offset") (.vBool false) initialState)
      = .vBool false :=
  setConfig_getConfigVar_roundtrip initialState ("asm.offset") (.vBool false)
    (.vBool true) (by decide) rfl

/-- setConfig with a different key does not change the durable store at k. -/
theorem setConfig_s_ne (q : String) (v : QVariant) (st : ConfigState) (k : String)
    (h : k ≠ q) : (setConfig q v st).s k = st.s k := by
  unfold setConfig coreSetConfig Store.setValue
  split <;> simp [h]

/-- setConfig with a different key does not change the engine at k. -/
theorem setConfig_core_ne (q : String) (v : QVariant) (st : ConfigState) (k : String)
    (h : k ≠ q) : (setConfig q v st).core k = st.core k := by
  unfold setConfig coreSetConfig Store.setValue
  split <;> simp [h]

/-- setConfig writes the forwarded value into the engine at its key. -/
theorem setConfig_core_self (k : String) (v : QVariant) (st : ConfigState) :
    (setConfig k v st).core k = some v := by
  unfold setConfig coreSetConfig Store.setValue
  split <;> simp

/-- setConfig persists the value at a recognized key. -/
theorem setConfig_s_self_of_asm (k : String) (v : QVariant) (st : ConfigState)
    (h : (List.lookup k asmOptions).isSome = true) :
    (setConfig k v st).s k = some v := by
  unfold setConfig coreSetConfig Store.setValue
  rw [if_pos h]
  simp

/-- A setConfig loop over pairs whose keys all differ from k leaves both
stores unchanged at k. -/
theorem foldl_setConfigStep_ne (l : List (String × QVariant)) :
    ∀ (st : ConfigState) (k : String), (∀ p ∈ l, p.1 ≠ k) →
      (l.foldl setConfigStep st).s k = st.s k ∧
      (l.foldl setConfigStep st).core k = st.core k := by
  induction l with
  | nil => intro st k _; exact ⟨rfl, rfl⟩
  | cons p tl ih =>
    intro st k h
    rw [List.foldl_cons]
    have hk : k ≠ p.1 := fun he => h p (List.mem_cons_self _ _) he.symm
    obtain ⟨ih1, ih2⟩ := ih (setConfigStep st p) k (fun q hq => h q (List.mem_cons_of_mem _ hq))
    exact ⟨ih1.trans (setConfig_s_ne p.1 p.2 st k hk),
      ih2.trans (setConfig_core_ne p.1 p.2 st k hk)⟩

/-- A setConfig loop over an association list with pairwise-distinct keys
ends with each looked-up key holding its list value, in the engine always
and in the durable store when the key is recognized. -/
theorem foldl_setConfigStep_lookup (l : List (String × QVariant)) :
    ∀ (st : ConfigState) (k : String) (d : QVariant),
      (l.map Prod.fst).Nodup → List.lookup k l = some d →
      (l.foldl setConfigStep st).core k = some d ∧
      ((List.lookup k asmOptions).isSome = true →
        (l.foldl setConfigStep st).s k = some d) := by
  induction l with
  | nil => intro st k d _ h; simp [List.lookup] at h
  | cons p tl ih =>
    intro st k d hn hl
    obtain ⟨a, b⟩ := p
    rw [List.map_cons] at hn
    obtain ⟨hna, hnt⟩ := List.nodup_cons.mp hn
    rw [List.foldl_cons]
    cases hk : k == a
    case true =>
      have hka : k = a := eq_of_beq hk
      subst hka
      have hbd : b = d := by simpa [List.lookup, hk] using hl
      subst hbd
      have hnot : ∀ q ∈ tl, q.1 ≠ k := by
        intro q hq he
        have hm : q.1 ∈ List.map Prod.fst tl := List.mem_map.mpr ⟨q, hq, rfl⟩
        exact hna (he ▸ hm)
      obtain ⟨h1, h2⟩ := foldl_setConfigStep_ne tl (setConfigStep st (k, b)) k hnot
      exact ⟨h2.trans (setConfig_core_self k b st),
        fun hasm => h1.trans (setConfig_s_self_of_asm k b st hasm)⟩
    case false =>
      have hl' : List.lookup k tl = some d := by simpa [List.lookup, hk] using hl
      exact ih (setConfigStep st (a, b)) k d hnt hl'

/-- C7: resetToDefaultAsmOptions commits every catalog entry's compiled-in
default both to the durable store and to the external engine. -/
theorem resetToDefaultAsmOptions_writes (st : ConfigState) (k : String) (d : QVariant)
    (h : List.lookup k asmOptions = some d) :
    (resetToDefaultAsmOptions st).s k = some d ∧
    (resetToDefaultAsmOptions st).core k = some d := by
  have hn : (asmOptions.map Prod.fst).Nodup := by decide
  obtain ⟨c1, c2⟩ := foldl_setConfigStep_lookup asmOptions st k d hn h
  have hasm : (List.lookup k asmOptions).isSome = true := by rw [h]; rfl
  exact ⟨c2 hasm, c1⟩

theorem resetToDefaultAsmOptions_writes_witness :
    (resetToDefaultAsmOptions initialState).s ("asm.syntax") = some (.vStr "intel") ∧
    (resetToDefaultAsmOptions initialState).core ("asm.syntax") = some (.vStr "intel") :=
  resetToDefaultAsmOptions_writes initialState ("asm.syntax") (.vStr "intel") (by decide)

/-- One applySavedAsmOptions step with a different key leaves the engine
unchanged at k. -/
theorem applyStep_core_ne (acc : ConfigState) (p : String × QVariant) (k : String)
    (h : k ≠ p.1) : (applyStep acc p).core k = acc.core k := by
  unfold applyStep coreSetConfig Store.setValue
  simp [h]

/-- One applySavedAsmOptions step writes persisted-value-or-default into the
engine at its key. -/
theorem applyStep_core_self (acc : ConfigState) (p : String × QVariant) :
    (applyStep acc p).core p.1 = some (acc.s.valueD p.1 p.2) := by
  unfold applyStep coreSetConfig Store.setValue
  simp

/-- The applySavedAsmOptions loop only ever touches the engine component. -/
theorem foldl_applyStep_shape (l : List (String × QVariant)) :
    ∀ acc : ConfigState,
      l.foldl applyStep acc = { acc with core := (l.foldl applyStep acc).core } := by
  induction l with
  | nil => intro acc; rfl
  | cons p tl ih =>
    intro acc
    rw [List.foldl_cons, ih (applyStep acc p)]
    rfl

/-- The applySavedAsmOptions loop over keys all different from k leaves the
engine unchanged at k. -/
theorem foldl_applyStep_ne (l : List (String × QVariant)) :
    ∀ (acc : ConfigState) (k : String), (∀ p ∈ l, p.1 ≠ k) →
      (l.foldl applyStep acc).core k = acc.core k := by
  induction l with
  | nil => intro acc k _; rfl
  | cons p tl ih =>
    intro acc k h
    rw [List.foldl_cons]
    have hk : k ≠ p.1 := fun he => h p (List.mem_cons_self _ _) he.symm
    exact (ih (applyStep acc p) k (fun q hq => h q (List.mem_cons_of_mem _ hq))).trans
      (applyStep_core_ne acc p k hk)

/-- What the applySavedAsmOptions loop leaves in the engine at k: the
persisted-value-or-default of the looked-up catalog entry, or the previous
engine value for keys outside the list. -/
theorem foldl_applyStep_lookup (l : List (String × QVariant)) :
    ∀ (acc : ConfigState) (k : String),
      (l.map Prod.fst).Nodup →
      (l.foldl applyStep acc).core k =
        (match List.lookup k l with
         | some d => some (acc.s.valueD k d)
         | none => acc.core k) := by
  induction l with
  | nil => intro acc k _; rfl
  | cons p tl ih =>
    intro acc k hn
    obtain ⟨a, b⟩ := p
    rw [List.map_cons] at hn
    obtain ⟨hna, hnt⟩ := List.nodup_cons.mp hn
    rw [List.foldl_cons]
    cases hk : k == a
    case true =>
      have hka : k = a := eq_of_beq hk
      subst hka
      have hnot : ∀ q ∈ tl, q.1 ≠ k := by
        intro q hq he
        have hm : q.1 ∈ List.map Prod.fst tl := List.mem_map.mpr ⟨q, hq, rfl⟩
        exact hna (he ▸ hm)
      rw [foldl_applyStep_ne tl (applyStep acc (k, b)) k hnot]
      have hself := applyStep_core_self acc (k, b)
      rw [hself]
      simp [List.lookup, hk]
    case false =>
      have hka : k ≠ a := fun he => by simp [he] at hk
      rw [ih (applyStep acc (a, b)) k hnt]
      have hcne := applyStep_core_ne acc (a, b) k hka
      cases hlt : List.lookup k tl
      case none => simp [List.lookup, hk, hlt, hcne]
      case some d =>
        simp [List.lookup, hk, hlt]
        rfl

/-- The applySavedAsmOptions loop never writes the durable store. -/
theorem applySavedAsmOptions_s (st : ConfigState) :
    (applySavedAsmOptions st).s = st.s := by
  have h := foldl_applyStep_shape asmOptions st
  rw [show applySavedAsmOptions st
      = { st with core := (applySavedAsmOptions st).core } from h]

/-- C8: applySavedAsmOptions never modifies the durable store, writes each
catalog key's persisted-value-or-default into the engine, and running it a
second time with no intervening writes reproduces the state after the first
run exactly. -/
theorem applySavedAsmOptions_spec (st : ConfigState) :
    (applySavedAsmOptions st).s = st.s ∧
    applySavedAsmOptions (applySavedAsmOptions st) = applySavedAsmOptions st ∧
    (∀ k d, List.lookup k asmOptions = some d →
      (applySavedAsmOptions st).core k = some (st.s.valueD k d)) := by
  have hn : (asmOptions.map Prod.fst).Nodup := by decide
  have hcore : ∀ (acc : ConfigState) (k : String),
      (applySavedAsmOptions acc).core k =
        (match List.lookup k asmOptions with
         | some d => some (acc.s.valueD k d)
         | none => acc.core k) :=
    fun acc k => foldl_applyStep_lookup asmOptions acc k hn
  refine ⟨applySavedAsmOptions_s st, ?_, ?_⟩
  · have hc : (applySavedAsmOptions (applySavedAsmOptions st)).core
        = (applySavedAsmOptions st).core := by
      funext k
      cases hl : List.lookup k asmOptions
      case none =>
        rw [hcore (applySavedAsmOptions st) k, hl]
      case some d =>
        rw [hcore (applySavedAsmOptions st) k, hcore st k, hl]
        unfold Store.valueD
        rw [show (applySavedAsmOptions st).s = st.s from applySavedAsmOptions_s st]
    have hshape := foldl_applyStep_shape asmOptions (applySavedAsmOptions st)
    rw [show applySavedAsmOptions (applySavedAsmOptions st)
        = { applySavedAsmOptions st with
            core := (applySavedAsmOptions (applySavedAsmOptions st)).core } from hshape,
      hc]
  · intro k d h
    rw [hcore st k, h]

theorem applySavedAsmOptions_spec_witness :
    (applySavedAsmOptions initialState).core ("asm.esil")
      = some (initialState.s.valueD ("asm.esil") (.vBool false)) :=
  (applySavedAsmOptions_spec initialState).2.2 ("asm.esil") (.vBool false) (by decide)
